import Mathlib

set_option maxRecDepth 10000

/-!
Shallow embedding of the YM2612 register model of src/YM2612.py
(class YM2612Chip with nested __YMChannel and __YMOperator classes).

Machine bytes are modelled as Nat with the explicit masks of the source;
Python object references (the per-index channel dictionary holds references
into an object heap, so two indices may alias the same record) are modelled
by a reference map chanRef : Fin 6 -> Nat into a heap : Nat -> YMChannel.
The MIDI transport is modelled as present (midiout is not None): a command
builder returns some frame exactly when the Python method hands a byte list
to midiout.send_message, and none when it returns False without building.
-/

namespace YM2612

/-- Embedding of __YMOperator: the 11 operator register fields
    (__init__ of __YMOperator, src/YM2612.py lines 380-404; the op_id
    argument is accepted by the Python constructor but never stored). -/
structure YMOperator where
  detune : Nat
  multiple : Nat
  total_level : Nat
  key_scale : Nat
  attack_rate : Nat
  amp_mod_on : Nat
  decay_rate : Nat
  sustain_rate : Nat
  sustain_level : Nat
  release_rate : Nat
  ssg_envelope : Nat
deriving DecidableEq, Repr

/-- Default-constructed operator: every field argument defaults to 0. -/
def mkYMOperator : YMOperator :=
  { detune := 0, multiple := 0, total_level := 0, key_scale := 0,
    attack_rate := 0, amp_mod_on := 0, decay_rate := 0, sustain_rate := 0,
    sustain_level := 0, release_rate := 0, ssg_envelope := 0 }

/-- Embedding of __YMChannel: voice attributes plus the 4 operator records
    (src/YM2612.py lines 342-366). -/
structure YMChannel where
  channel_id : Nat
  feedback : Nat
  op_algorithm : Nat
  audio_out : Nat
  phase_mod_sens : Nat
  amp_mod_sens : Nat
  operator : Fin 4 → YMOperator

/-- Channel constructed with __YMChannel(channel_id=cid) and all other
    constructor defaults: feedback=0, op_algorithm=0, audio_out=3,
    phase_mod_sens=0, amp_mod_sens=0, fresh all-zero operators. -/
def mkYMChannel (cid : Nat) : YMChannel :=
  { channel_id := cid, feedback := 0, op_algorithm := 0, audio_out := 3,
    phase_mod_sens := 0, amp_mod_sens := 0, operator := fun _ => mkYMOperator }

/-- Embedding of the YM2612Chip object.  channel[i] in Python is a
    reference to a __YMChannel object: chanRef i is the heap address the
    index currently refers to.  The five Option Nat fields model the
    attributes that load_vgi_file creates dynamically on the chip object
    itself (they do not exist before the first load). -/
structure YM2612Chip where
  vendor_id : Nat
  lfo_on : Nat
  lfo_freq : Nat
  chanRef : Fin 6 → Nat
  heap : Nat → YMChannel
  op_algorithm : Option Nat
  feedback : Option Nat
  audio_out : Option Nat
  amp_mod_sens : Option Nat
  phase_mod_sens : Option Nat

/-- YM2612Chip.__init__ (src/YM2612.py lines 41-65): vendor_id = 0x001234,
    the given LFO values (both default to 0 in the source), and six freshly
    constructed channels at distinct heap addresses 0..5. -/
def mkYM2612Chip (lfo_on lfo_freq : Nat) : YM2612Chip :=
  { vendor_id := 0x001234, lfo_on := lfo_on, lfo_freq := lfo_freq,
    chanRef := fun i => i.val, heap := fun n => mkYMChannel n,
    op_algorithm := none, feedback := none, audio_out := none,
    amp_mod_sens := none, phase_mod_sens := none }

/-- Dereference channel index i: Python expression self.channel[i]. -/
def channel (c : YM2612Chip) (i : Fin 6) : YMChannel :=
  c.heap (c.chanRef i)

/-- Heap update at one address (Python attribute mutation through a
    reference: every index whose reference equals the address sees it). -/
def updHeap (h : Nat → YMChannel) (a : Nat) (f : YMChannel → YMChannel) :
    Nat → YMChannel :=
  fun n => if n = a then f (h n) else h n

/-- Replacement of one operator slot of a channel (Python mutates the
    operator object in place; all 11 fields are overwritten by the VGI
    loader, so the result record is supplied whole). -/
def updOp (ch : YMChannel) (j : Fin 4) (op : YMOperator) : YMChannel :=
  { ch with operator := fun k => if k = j then op else ch.operator k }

/- ===== Register packing getters (bit layouts of the source) ===== -/

/-- get_reg_LRAMSPMS (line 368). -/
def get_reg_LRAMSPMS (ch : YMChannel) : Nat :=
  ((ch.audio_out &&& 0x03) <<< 6) ||| ((ch.amp_mod_sens &&& 0x03) <<< 4) |||
    (ch.phase_mod_sens &&& 0x07)

/-- get_reg_FBALG (line 372).  Note the source masks feedback with 0x03. -/
def get_reg_FBALG (ch : YMChannel) : Nat :=
  ((ch.feedback &&& 0x03) <<< 3) ||| (ch.op_algorithm &&& 0x07)

/-- get_reg_DETMUL (line 406). -/
def get_reg_DETMUL (op : YMOperator) : Nat :=
  ((op.detune <<< 4) &&& 0x70) ||| (op.multiple &&& 0x0F)

/-- get_reg_TL (line 410). -/
def get_reg_TL (op : YMOperator) : Nat :=
  op.total_level &&& 0x7F

/-- get_reg_KSAR (line 414). -/
def get_reg_KSAR (op : YMOperator) : Nat :=
  ((op.key_scale &&& 0x03) <<< 6) ||| (op.attack_rate &&& 0x1F)

/-- get_reg_AMDR (line 418). -/
def get_reg_AMDR (op : YMOperator) : Nat :=
  ((op.amp_mod_on &&& 0x01) <<< 7) ||| (op.decay_rate &&& 0x1F)

/-- get_reg_SR (line 422). -/
def get_reg_SR (op : YMOperator) : Nat :=
  op.sustain_rate &&& 0x1F

/-- get_reg_SLRL (line 426). -/
def get_reg_SLRL (op : YMOperator) : Nat :=
  ((op.sustain_level &&& 0x0F) <<< 4) ||| (op.release_rate &&& 0x0F)

/-- get_reg_SSGEG (line 430). -/
def get_reg_SSGEG (op : YMOperator) : Nat :=
  op.ssg_envelope &&& 0x0F

/- ===== Flat register array (__get_reg_values_array, lines 104-130) ===== -/

/-- Operator portion appended for one operator inside the flatten loop
    (lines 118-128), in source order. -/
def operator_block (op : YMOperator) : List Nat :=
  [op.detune, op.multiple, op.total_level, op.key_scale, op.attack_rate,
   op.amp_mod_on, op.decay_rate, op.sustain_rate, op.sustain_level,
   op.release_rate, op.ssg_envelope]

/-- Portion appended for one channel of the flatten loop (lines 111-128):
    5 voice fields then the 4 operator blocks, the range(4) loop unrolled. -/
def channel_block (ch : YMChannel) : List Nat :=
  [ch.feedback, ch.op_algorithm, ch.audio_out, ch.amp_mod_sens,
   ch.phase_mod_sens]
  ++ operator_block (ch.operator 0) ++ operator_block (ch.operator 1)
  ++ operator_block (ch.operator 2) ++ operator_block (ch.operator 3)

/-- Embedding of __get_reg_values_array: the two LFO fields, then the six
    channel blocks (range(6) loop unrolled). -/
def get_reg_values_array (c : YM2612Chip) : List Nat :=
  [c.lfo_on, c.lfo_freq]
  ++ channel_block (channel c 0) ++ channel_block (channel c 1)
  ++ channel_block (channel c 2) ++ channel_block (channel c 3)
  ++ channel_block (channel c 4) ++ channel_block (channel c 5)

/- ===== SysEx framing and command builders ===== -/

/-- Named SysEx command codes (lines 23-26). -/
def YM_SYSEX_CMD_SET_REG : Nat := 0

/-- SAVE_PRESET command code. -/
def YM_SYSEX_CMD_SAVE_PRESET : Nat := 1

/-- LOAD_PRESET command code. -/
def YM_SYSEX_CMD_LOAD_PRESET : Nat := 2

/-- LOAD_DEFAULT_PRESET command code. -/
def YM_SYSEX_CMD_LOAD_DEFAULT_PRESET : Nat := 3

/-- Maximum number of user preset slots (line 13). -/
def YM_MAX_NUM_USER_PRESETS : Nat := 5

/-- Maximum number of factory preset slots (line 14). -/
def YM_MAX_NUM_DEFAULT_PRESETS : Nat := 8

/-- Embedding of __send_midi_cmd with midiout present (lines 67-98): the
    exact sysex_data list handed to midiout.send_message. -/
def send_midi_cmd (c : YM2612Chip) (midi_cmd : Nat) (cmd_payload : List Nat) :
    List Nat :=
  [0xF0, (c.vendor_id >>> 16) &&& 0xFF, (c.vendor_id >>> 8) &&& 0xFF,
   (c.vendor_id >>> 0) &&& 0xFF, midi_cmd]
  ++ cmd_payload ++ [0xF7]

/-- Python expression format(preset_name) with the format spec of line 229:
    left-justify, pad with spaces to a minimum width of 15 characters (the
    format never truncates a longer string).  Names are ASCII byte lists. -/
def format_preset_name (preset_name : List Nat) : List Nat :=
  preset_name ++ List.replicate (15 - preset_name.length) 0x20

/-- Nibble expansion loop of midi_save_preset (lines 231-233): each name
    byte is appended low nibble first, then high nibble. -/
def name_nibbles : List Nat → List Nat
  | [] => []
  | b :: rest =>
      ((b >>> 0) &&& 0x0F) :: ((b >>> 4) &&& 0x0F) :: name_nibbles rest

/-- Payload built by midi_save_preset for an in-range slot (lines 225-235):
    slot position, nibble-encoded padded name, then the register array. -/
def save_preset_payload (c : YM2612Chip) (preset_pos : Nat)
    (preset_name : List Nat) : List Nat :=
  preset_pos :: (name_nibbles (format_preset_name preset_name)
    ++ get_reg_values_array c)

/-- midi_save_preset (lines 215-238): builds and sends only when
    preset_pos < YM_MAX_NUM_USER_PRESETS, otherwise returns False having
    produced no byte (modelled as none). -/
def midi_save_preset (c : YM2612Chip) (preset_pos : Nat)
    (preset_name : List Nat) : Option (List Nat) :=
  if preset_pos < YM_MAX_NUM_USER_PRESETS then
    some (send_midi_cmd c YM_SYSEX_CMD_SAVE_PRESET
      (save_preset_payload c preset_pos preset_name))
  else none

/-- midi_load_preset (lines 256-270). -/
def midi_load_preset (c : YM2612Chip) (preset_pos : Nat) :
    Option (List Nat) :=
  if preset_pos < YM_MAX_NUM_USER_PRESETS then
    some (send_midi_cmd c YM_SYSEX_CMD_LOAD_PRESET [preset_pos])
  else none

/-- midi_load_default_preset (lines 240-254). -/
def midi_load_default_preset (c : YM2612Chip) (preset_pos : Nat) :
    Option (List Nat) :=
  if preset_pos < YM_MAX_NUM_DEFAULT_PRESETS then
    some (send_midi_cmd c YM_SYSEX_CMD_LOAD_DEFAULT_PRESET [preset_pos])
  else none

/-- midi_set_reg_values (lines 203-213). -/
def midi_set_reg_values (c : YM2612Chip) : Option (List Nat) :=
  some (send_midi_cmd c YM_SYSEX_CMD_SET_REG (get_reg_values_array c))

/- ===== VGI file loading (load_vgi_file, lines 167-201) ===== -/

/-- Log events emitted by load_vgi_file through self.logger.info. -/
inductive LogEvent where
  | loadFile
  | sizeError (got : Nat)
deriving DecidableEq, Repr

/-- Operator record produced by the ten sequential byte reads of one
    iteration of the operator loop (lines 184-195), reading from offset
    base of the file (base = 3 + 10 * operator_id). -/
def read_vgi_operator (b : Nat → Nat) (base : Nat) : YMOperator :=
  { multiple := b base, detune := b (base + 1), total_level := b (base + 2),
    key_scale := b (base + 3), attack_rate := b (base + 4),
    amp_mod_on := (b (base + 5) >>> 7) &&& 0x01,
    decay_rate := (b (base + 5) >>> 0) &&& 0x1F,
    sustain_rate := b (base + 6), release_rate := b (base + 7),
    sustain_level := b (base + 8), ssg_envelope := b (base + 9) }

/-- One iteration of the aliasing loop (lines 197-199) at loop index k:
    self.channel[k+1] = self.channel[0] rebinds index k+1 to the address
    channel 0 refers to, then self.channel[k+1].channel_id = k+1 writes
    through that shared reference. -/
def vgi_alias_step (c : YM2612Chip) (k : Nat) : YM2612Chip :=
  let r0 := c.chanRef 0
  { c with
    chanRef := fun i => if i.val = k + 1 then r0 else c.chanRef i,
    heap := updHeap c.heap r0 (fun ch => { ch with channel_id := k + 1 }) }

/-- Embedding of load_vgi_file on the bytes of the named file.  On a
    43-byte input: the three voice-level header bytes are stored as NEW
    attributes of the chip object itself (the source assigns to
    self.op_algorithm etc., lines 176-181, not to self.channel[0]); the
    four operator blocks overwrite channel 0's operators through its
    reference; then the aliasing loop rebinds channels 1..5 to channel 0's
    record.  On any other length the method only logs the size error and
    leaves every register untouched.  The second component lists the
    logger.info events relevant to the outcome. -/
def load_vgi_file (c : YM2612Chip) (byte_data : List Nat) :
    YM2612Chip × List LogEvent :=
  if byte_data.length = 43 then
    let b := fun i => byte_data.getD i 0
    let r0 := c.chanRef 0
    let c1 : YM2612Chip :=
      { c with
        op_algorithm := some (b 0),
        feedback := some (b 1),
        audio_out := some ((b 2 >>> 6) &&& 0x03),
        amp_mod_sens := some ((b 2 >>> 4) &&& 0x03),
        phase_mod_sens := some ((b 2 >>> 0) &&& 0x07),
        heap := updHeap c.heap r0 (fun ch =>
          updOp (updOp (updOp (updOp ch 0 (read_vgi_operator b 3))
            1 (read_vgi_operator b 13)) 2 (read_vgi_operator b 23))
            3 (read_vgi_operator b 33)) }
    ((List.range 5).foldl vgi_alias_step c1, [LogEvent.loadFile])
  else
    (c, [LogEvent.loadFile, LogEvent.sizeError byte_data.length])

/-- Python statement self.channel[i].feedback = v: a field write through
    the reference held at channel index i. -/
def write_feedback (c : YM2612Chip) (i : Fin 6) (v : Nat) : YM2612Chip :=
  { c with
    heap := updHeap c.heap (c.chanRef i) (fun ch => { ch with feedback := v }) }

end YM2612

namespace YM2612

/- ===== Arithmetic helper lemmas about the source's bit masks ===== -/

/-- Mask 0x01 is reduction mod 2. -/
theorem and_mask1 (x : Nat) : x &&& 0x01 = x % 2 :=
  Nat.and_one_is_mod x

/-- Mask 0x03 is reduction mod 4. -/
theorem and_mask3 (x : Nat) : x &&& 0x03 = x % 4 := by
  have h := Nat.and_pow_two_sub_one_eq_mod x 2
  norm_num at h
  exact h

/-- Mask 0x07 is reduction mod 8. -/
theorem and_mask7 (x : Nat) : x &&& 0x07 = x % 8 := by
  have h := Nat.and_pow_two_sub_one_eq_mod x 3
  norm_num at h
  exact h

/-- Mask 0x0F is reduction mod 16. -/
theorem and_mask15 (x : Nat) : x &&& 0x0F = x % 16 := by
  have h := Nat.and_pow_two_sub_one_eq_mod x 4
  norm_num at h
  exact h

/-- Mask 0x1F is reduction mod 32. -/
theorem and_mask31 (x : Nat) : x &&& 0x1F = x % 32 := by
  have h := Nat.and_pow_two_sub_one_eq_mod x 5
  norm_num at h
  exact h

/-- Mask 0x7F is reduction mod 128. -/
theorem and_mask127 (x : Nat) : x &&& 0x7F = x % 128 := by
  have h := Nat.and_pow_two_sub_one_eq_mod x 7
  norm_num at h
  exact h

/-- An and with 0x70 only depends on the argument mod 128. -/
theorem and_70_mod (a : Nat) : a &&& 0x70 = (a % 128) &&& 0x70 := by
  have h70 : ((0x7F : Nat) &&& 0x70) = 0x70 := by decide
  calc a &&& 0x70 = a &&& (0x7F &&& 0x70) := by rw [h70]
    _ = (a &&& 0x7F) &&& 0x70 := (Nat.and_assoc a 0x7F 0x70).symm
    _ = (a % 128) &&& 0x70 := by rw [and_mask127]

/-- Shifting then masking with 0x70 truncates the shifted value to 3 bits:
    the DETMUL detune sub-expression. -/
theorem shift4_and_70 (v : Nat) : (v <<< 4) &&& 0x70 = ((v % 8) <<< 4) &&& 0x70 := by
  rw [Nat.shiftLeft_eq, Nat.shiftLeft_eq]
  rw [and_70_mod (v * 2 ^ 4), and_70_mod (v % 8 * 2 ^ 4)]
  congr 1
  omega

/-- Value of the FBALG byte in plain arithmetic: the source masks feedback
    to 2 bits before shifting it to bit 3. -/
theorem get_reg_FBALG_eq (ch : YMChannel) :
    get_reg_FBALG ch = 8 * (ch.feedback % 4) + ch.op_algorithm % 8 := by
  unfold get_reg_FBALG
  rw [and_mask3, and_mask7]
  have key : ∀ x, x < 4 → ∀ y, y < 8 → ((x <<< 3) ||| y) = 8 * x + y := by decide
  exact key _ (Nat.mod_lt _ (by norm_num)) _ (Nat.mod_lt _ (by norm_num))

end YM2612

namespace YM2612

/-- C6 counterexample: the flattened register array of a freshly
    constructed chip has 296 entries, not the 266 the claim states
    (2 + 6 * (5 + 4 * 11) equals 296). -/
theorem claim_C6_counterexample :
    (get_reg_values_array (mkYM2612Chip 0 0)).length = 296 ∧
    (296 : Nat) ≠ 266 ∧ 2 + 6 * (5 + 4 * 11) = 296 := by
  refine ⟨?_, by decide, by decide⟩
  simp [get_reg_values_array, channel_block, operator_block]

/-- C6 amended: for every chip image, regardless of its field values, the
    flattened register array has exactly 2 + 6 * (5 + 4 * 11) = 296 entries,
    the two LFO fields first, then per voice its 5 voice-level fields
    followed by the 11 raw operator fields of operators 0..3. -/
theorem claim_C6_flatten_length (c : YM2612Chip) :
    (get_reg_values_array c).length = 296 ∧
    (get_reg_values_array c).take 2 = [c.lfo_on, c.lfo_freq] := by
  constructor
  · simp [get_reg_values_array, channel_block, operator_block]
  · simp [get_reg_values_array]

/-- C4: SAVE_PRESET and LOAD_PRESET fail (returning no frame, nothing
    handed to the transport) exactly when the slot is at least 5, and
    LOAD_DEFAULT_PRESET exactly when the slot is at least 8; in-range
    slots succeed, in particular LOAD_DEFAULT_PRESET(7) and
    SAVE_PRESET(4, ...). -/
theorem claim_C4_slot_bounds :
    (∀ (c : YM2612Chip) (pos : Nat) (name : List Nat),
      midi_save_preset c pos name = none ↔ 5 ≤ pos) ∧
    (∀ (c : YM2612Chip) (pos : Nat), midi_load_preset c pos = none ↔ 5 ≤ pos) ∧
    (∀ (c : YM2612Chip) (pos : Nat),
      midi_load_default_preset c pos = none ↔ 8 ≤ pos) ∧
    (midi_load_default_preset (mkYM2612Chip 0 0) 7).isSome = true ∧
    midi_load_default_preset (mkYM2612Chip 0 0) 8 = none ∧
    (midi_save_preset (mkYM2612Chip 0 0) 4 [76, 69, 65, 68]).isSome = true ∧
    midi_save_preset (mkYM2612Chip 0 0) 5 [76, 69, 65, 68] = none := by
  refine ⟨?_, ?_, ?_, by rfl, by rfl, by rfl, by rfl⟩
  · intro c pos name
    by_cases hp : pos < YM_MAX_NUM_USER_PRESETS <;>
      simp [midi_save_preset, hp] <;> simp [YM_MAX_NUM_USER_PRESETS] at hp <;> omega
  · intro c pos
    by_cases hp : pos < YM_MAX_NUM_USER_PRESETS <;>
      simp [midi_load_preset, hp] <;> simp [YM_MAX_NUM_USER_PRESETS] at hp <;> omega
  · intro c pos
    by_cases hp : pos < YM_MAX_NUM_DEFAULT_PRESETS <;>
      simp [midi_load_default_preset, hp] <;>
      simp [YM_MAX_NUM_DEFAULT_PRESETS] at hp <;> omega

/-- C5: with the vendor id constant 0x001234 of the constructor, every
    frame handed to the transport is 0xF0, vendor bytes 0x00 0x12 0x34,
    the command byte, the payload, then 0xF7; it begins with 0xF0, ends
    with 0xF7, its 5th byte is the command; the four defined command
    codes are 0, 1, 2 and 3. -/
theorem claim_C5_frame_shape :
    (∀ lfo1 lfo2, (mkYM2612Chip lfo1 lfo2).vendor_id = 0x001234) ∧
    (YM_SYSEX_CMD_SET_REG = 0 ∧ YM_SYSEX_CMD_SAVE_PRESET = 1 ∧
      YM_SYSEX_CMD_LOAD_PRESET = 2 ∧ YM_SYSEX_CMD_LOAD_DEFAULT_PRESET = 3) ∧
    (∀ (c : YM2612Chip) (cmd : Nat) (payload : List Nat),
      c.vendor_id = 0x001234 → cmd < 4 →
      send_midi_cmd c cmd payload
          = 0xF0 :: 0x00 :: 0x12 :: 0x34 :: cmd :: (payload ++ [0xF7]) ∧
      (send_midi_cmd c cmd payload).head? = some 0xF0 ∧
      (send_midi_cmd c cmd payload).getLast? = some 0xF7 ∧
      (send_midi_cmd c cmd payload)[4]? = some cmd) := by
  refine ⟨fun lfo1 lfo2 => rfl, ⟨rfl, rfl, rfl, rfl⟩, ?_⟩
  intro c cmd payload hv hcmd
  have hfrm : send_midi_cmd c cmd payload
      = 0xF0 :: 0x00 :: 0x12 :: 0x34 :: cmd :: (payload ++ [0xF7]) := by
    simp [send_midi_cmd, hv]
    decide
  refine ⟨hfrm, by rw [hfrm]; rfl, ?_, by rw [hfrm]; simp⟩
  have hfrm2 : send_midi_cmd c cmd payload
      = ([0xF0, 0x00, 0x12, 0x34, cmd] ++ payload) ++ [0xF7] := by
    rw [hfrm]; simp
  rw [hfrm2, List.getLast?_concat]

/-- C5 witness: the frame law evaluated for command 2 with payload [9] on a
    freshly constructed chip. -/
theorem claim_C5_frame_shape_witness :
    send_midi_cmd (mkYM2612Chip 0 0) 2 [9] = [0xF0, 0x00, 0x12, 0x34, 2, 9, 0xF7] ∧
    (send_midi_cmd (mkYM2612Chip 0 0) 2 [9]).getLast? = some 0xF7 ∧
    (send_midi_cmd (mkYM2612Chip 0 0) 2 [9])[4]? = some 2 := by
  have h := claim_C5_frame_shape.2.2 (mkYM2612Chip 0 0) 2 [9] rfl (by decide)
  exact ⟨h.1, h.2.2.1, h.2.2.2⟩

/-- C2 counterexample: decoding a 40-byte buffer does not surface any
    distinct outcome to the caller: the chip state is returned unchanged
    (byte-for-byte the same object) and the failure exists only as the
    logger.info size-error event, i.e. it is merely logged and swallowed. -/
theorem claim_C2_counterexample :
    (load_vgi_file (mkYM2612Chip 0 0) (List.replicate 40 0)).1 = mkYM2612Chip 0 0 ∧
    (load_vgi_file (mkYM2612Chip 0 0) (List.replicate 40 0)).2
      = [LogEvent.loadFile, LogEvent.sizeError 40] := by
  exact ⟨rfl, rfl⟩

/-- C2 amended: for every buffer whose length is not 43, the decode leaves
    every register field unchanged (no partial decode) and reports the size
    error only through a log event; the method returns normally exactly as
    on the success path, so no distinct outcome is surfaced to the caller. -/
theorem claim_C2_size_error_only_logged (c : YM2612Chip) (byte_data : List Nat)
    (h : byte_data.length ≠ 43) :
    load_vgi_file c byte_data
      = (c, [LogEvent.loadFile, LogEvent.sizeError byte_data.length]) := by
  simp [load_vgi_file, h]

/-- C2 witness: the amended size-error law evaluated on a 40-byte zero
    buffer and a freshly constructed chip. -/
theorem claim_C2_size_error_only_logged_witness :
    (List.replicate 40 (0 : Nat)).length ≠ 43 ∧
    load_vgi_file (mkYM2612Chip 0 0) (List.replicate 40 0)
      = (mkYM2612Chip 0 0,
         [LogEvent.loadFile, LogEvent.sizeError (List.replicate 40 (0 : Nat)).length]) :=
  ⟨by decide, claim_C2_size_error_only_logged (mkYM2612Chip 0 0)
    (List.replicate 40 0) (by decide)⟩

/-- C9 counterexample: the bare default audio_out of a freshly constructed
    voice is 3 (the constructor default of __YMChannel), not zero. -/
theorem claim_C9_counterexample :
    (channel (mkYM2612Chip 0 0) 0).audio_out = 3 ∧ (3 : Nat) ≠ 0 := by
  decide

/-- C9 amended: a freshly constructed chip image has zero LFO fields and,
    for every voice, zero feedback, algorithm, sensitivity and operator
    fields and channel_id equal to the index, but audio_out defaults to 3
    (which encodes to both outputs under the bit mapping), not zero. -/
theorem claim_C9_fresh_defaults :
    (mkYM2612Chip 0 0).lfo_on = 0 ∧ (mkYM2612Chip 0 0).lfo_freq = 0 ∧
    ∀ i : Fin 6,
      (channel (mkYM2612Chip 0 0) i).feedback = 0 ∧
      (channel (mkYM2612Chip 0 0) i).op_algorithm = 0 ∧
      (channel (mkYM2612Chip 0 0) i).audio_out = 3 ∧
      (channel (mkYM2612Chip 0 0) i).amp_mod_sens = 0 ∧
      (channel (mkYM2612Chip 0 0) i).phase_mod_sens = 0 ∧
      (channel (mkYM2612Chip 0 0) i).channel_id = i.val ∧
      ∀ j : Fin 4, (channel (mkYM2612Chip 0 0) i).operator j = mkYMOperator := by
  decide

end YM2612

namespace YM2612

/-- Repeated reduction modulo the same base is idempotent. -/
theorem mod_mod_id (x k : Nat) : x % k % k = x % k :=
  Nat.mod_mod_of_dvd x (dvd_refl k)

/-- C7: packing any operator register byte with a field set to v yields the
    same byte as packing it with v reduced modulo 2 to the field's declared
    bit width (detune 3, multiple 4, total_level 7, key_scale 2,
    attack_rate 5, amp_mod_on 1, decay_rate 5, sustain_rate 5,
    sustain_level 4, release_rate 4, ssg_envelope 4 bits); in particular
    detune = 8 packs identically to detune = 0, and no packing rejects an
    out-of-range value (the getters are total functions). -/
theorem claim_C7_masking_law (op : YMOperator) (v : Nat) :
    (get_reg_DETMUL { op with detune := v }
      = get_reg_DETMUL { op with detune := v % 8 }) ∧
    (get_reg_DETMUL { op with multiple := v }
      = get_reg_DETMUL { op with multiple := v % 16 }) ∧
    (get_reg_TL { op with total_level := v }
      = get_reg_TL { op with total_level := v % 128 }) ∧
    (get_reg_KSAR { op with key_scale := v }
      = get_reg_KSAR { op with key_scale := v % 4 }) ∧
    (get_reg_KSAR { op with attack_rate := v }
      = get_reg_KSAR { op with attack_rate := v % 32 }) ∧
    (get_reg_AMDR { op with amp_mod_on := v }
      = get_reg_AMDR { op with amp_mod_on := v % 2 }) ∧
    (get_reg_AMDR { op with decay_rate := v }
      = get_reg_AMDR { op with decay_rate := v % 32 }) ∧
    (get_reg_SR { op with sustain_rate := v }
      = get_reg_SR { op with sustain_rate := v % 32 }) ∧
    (get_reg_SLRL { op with sustain_level := v }
      = get_reg_SLRL { op with sustain_level := v % 16 }) ∧
    (get_reg_SLRL { op with release_rate := v }
      = get_reg_SLRL { op with release_rate := v % 16 }) ∧
    (get_reg_SSGEG { op with ssg_envelope := v }
      = get_reg_SSGEG { op with ssg_envelope := v % 16 }) ∧
    (get_reg_DETMUL { op with detune := 8 }
      = get_reg_DETMUL { op with detune := 0 }) := by
  refine ⟨?_, ?_, ?_, ?_, ?_, ?_, ?_, ?_, ?_, ?_, ?_, ?_⟩
  · dsimp only [get_reg_DETMUL]
    rw [shift4_and_70 v]
  · dsimp only [get_reg_DETMUL]
    rw [and_mask15 v, and_mask15 (v % 16), mod_mod_id]
  · dsimp only [get_reg_TL]
    rw [and_mask127 v, and_mask127 (v % 128), mod_mod_id]
  · dsimp only [get_reg_KSAR]
    rw [and_mask3 v, and_mask3 (v % 4), mod_mod_id]
  · dsimp only [get_reg_KSAR]
    rw [and_mask31 v, and_mask31 (v % 32), mod_mod_id]
  · dsimp only [get_reg_AMDR]
    rw [and_mask1 v, and_mask1 (v % 2), mod_mod_id]
  · dsimp only [get_reg_AMDR]
    rw [and_mask31 v, and_mask31 (v % 32), mod_mod_id]
  · dsimp only [get_reg_SR]
    rw [and_mask31 v, and_mask31 (v % 32), mod_mod_id]
  · dsimp only [get_reg_SLRL]
    rw [and_mask15 v, and_mask15 (v % 16), mod_mod_id]
  · dsimp only [get_reg_SLRL]
    rw [and_mask15 v, and_mask15 (v % 16), mod_mod_id]
  · dsimp only [get_reg_SSGEG]
    rw [and_mask15 v, and_mask15 (v % 16), mod_mod_id]
  · dsimp only [get_reg_DETMUL]
    norm_num [shift4_and_70 8]

/-- C8 counterexample: two voices with the same algorithm and the distinct
    3-bit feedback values 0 and 4 pack to the same FBALG byte, so the full
    3-bit feedback field is not recoverable from the byte. -/
theorem claim_C8_counterexample :
    get_reg_FBALG { mkYMChannel 0 with feedback := 0, op_algorithm := 5 }
      = get_reg_FBALG { mkYMChannel 0 with feedback := 4, op_algorithm := 5 } ∧
    (0 : Nat) % 8 ≠ 4 % 8 := by
  decide

/-- C8 amended: the FBALG byte encodes feedback masked to 2 bits (the
    source masks with 0x03 before shifting to bit 3): bits 4:3 of the byte
    recover feedback mod 4, and for equal algorithms the packed bytes
    differ exactly when the feedback values differ after masking to 2 bits. -/
theorem claim_C8_fbalg_two_bits :
    (∀ ch : YMChannel, (get_reg_FBALG ch >>> 3) &&& 0x03 = ch.feedback % 4) ∧
    (∀ ch1 ch2 : YMChannel, ch1.op_algorithm = ch2.op_algorithm →
      (get_reg_FBALG ch1 = get_reg_FBALG ch2 ↔
        ch1.feedback % 4 = ch2.feedback % 4)) := by
  constructor
  · intro ch
    rw [get_reg_FBALG_eq, and_mask3, Nat.shiftRight_eq_div_pow]
    have h4 : ch.feedback % 4 < 4 := Nat.mod_lt _ (by norm_num)
    have h8 : ch.op_algorithm % 8 < 8 := Nat.mod_lt _ (by norm_num)
    norm_num
    omega
  · intro ch1 ch2 halg
    rw [get_reg_FBALG_eq, get_reg_FBALG_eq, halg]
    omega

/-- C8 witness: the amended FBALG law applied to two concrete voices with
    equal algorithm and feedback values 1 and 5. -/
theorem claim_C8_fbalg_two_bits_witness :
    (get_reg_FBALG { mkYMChannel 0 with feedback := 1 } >>> 3) &&& 0x03
        = 1 % 4 ∧
    (get_reg_FBALG { mkYMChannel 0 with feedback := 1 }
        = get_reg_FBALG { mkYMChannel 0 with feedback := 5 } ↔
      (1 : Nat) % 4 = 5 % 4) :=
  ⟨claim_C8_fbalg_two_bits.1 { mkYMChannel 0 with feedback := 1 },
   claim_C8_fbalg_two_bits.2 { mkYMChannel 0 with feedback := 1 }
     { mkYMChannel 0 with feedback := 5 } rfl⟩

end YM2612

namespace YM2612

/-- Nibble expansion emits exactly two payload bytes per name byte. -/
theorem name_nibbles_length (l : List Nat) :
    (name_nibbles l).length = 2 * l.length := by
  induction l with
  | nil => rfl
  | cons b rest ih =>
      simp [name_nibbles, ih]
      omega

/-- Padding a name of at most 15 bytes yields exactly 15 bytes. -/
theorem format_preset_name_length (name : List Nat) (h : name.length ≤ 15) :
    (format_preset_name name).length = 15 := by
  simp [format_preset_name]
  omega

/-- C3 counterexample: for slot 0 and name LEAD the SAVE_PRESET payload has
    1 + 30 + 296 = 327 bytes, not the 1 + 30 + 266 = 297 the claim implies
    (the register section has 296 values, not 266); and a 16-character name
    is not truncated, producing 32 name bytes instead of 30. -/
theorem claim_C3_counterexample :
    (save_preset_payload (mkYM2612Chip 0 0) 0 [76, 69, 65, 68]).length = 327 ∧
    (327 : Nat) ≠ 1 + 30 + 266 ∧
    (name_nibbles (format_preset_name (List.replicate 16 65))).length = 32 ∧
    (32 : Nat) ≠ 30 := by
  refine ⟨?_, by decide, by decide, by decide⟩
  simp [save_preset_payload, get_reg_values_array, channel_block,
    operator_block, name_nibbles_length, format_preset_name]

/-- C3 amended: for every in-range slot and every name of at most 15 bytes,
    the SAVE_PRESET payload is exactly [slot], then 30 name bytes (the name
    left-justified and padded with spaces to exactly 15 bytes, each byte b
    transmitted as b AND 0x0F then (b SHR 4) AND 0x0F, so LEAD starts with
    0x0C 0x04), then the 296 register values; names longer than 15 bytes
    are padded-only, never truncated. -/
theorem claim_C3_save_preset_payload (c : YM2612Chip) (pos : Nat)
    (name : List Nat) (hpos : pos < 5) (hlen : name.length ≤ 15) :
    midi_save_preset c pos name
      = some (send_midi_cmd c YM_SYSEX_CMD_SAVE_PRESET
          (pos :: (name_nibbles (format_preset_name name)
            ++ get_reg_values_array c))) ∧
    (format_preset_name name).length = 15 ∧
    (name_nibbles (format_preset_name name)).length = 30 ∧
    (get_reg_values_array c).length = 296 ∧
    (save_preset_payload c pos name).length = 327 ∧
    (name_nibbles (format_preset_name [76, 69, 65, 68])).take 2
      = [0x0C, 0x04] := by
  have hfmt : (format_preset_name name).length = 15 :=
    format_preset_name_length name hlen
  have hnib : (name_nibbles (format_preset_name name)).length = 30 := by
    rw [name_nibbles_length, hfmt]
  have hreg : (get_reg_values_array c).length = 296 := by
    simp [get_reg_values_array, channel_block, operator_block]
  refine ⟨?_, hfmt, hnib, hreg, ?_, by decide⟩
  · simp [midi_save_preset, YM_MAX_NUM_USER_PRESETS, hpos,
      save_preset_payload]
  · simp [save_preset_payload, hnib, hreg]

/-- C3 witness: the amended SAVE_PRESET payload law evaluated at slot 0
    with name LEAD on a freshly constructed chip. -/
theorem claim_C3_save_preset_payload_witness :
    (0 : Nat) < 5 ∧ ([76, 69, 65, 68] : List Nat).length ≤ 15 ∧
    midi_save_preset (mkYM2612Chip 0 0) 0 [76, 69, 65, 68]
      = some (send_midi_cmd (mkYM2612Chip 0 0) YM_SYSEX_CMD_SAVE_PRESET
          (0 :: (name_nibbles (format_preset_name [76, 69, 65, 68])
            ++ get_reg_values_array (mkYM2612Chip 0 0)))) ∧
    (name_nibbles (format_preset_name [76, 69, 65, 68])).length = 30 ∧
    (save_preset_payload (mkYM2612Chip 0 0) 0 [76, 69, 65, 68]).length = 327 :=
  ⟨by decide, by decide,
   (claim_C3_save_preset_payload (mkYM2612Chip 0 0) 0 [76, 69, 65, 68]
     (by decide) (by decide)).1,
   (claim_C3_save_preset_payload (mkYM2612Chip 0 0) 0 [76, 69, 65, 68]
     (by decide) (by decide)).2.2.1,
   (claim_C3_save_preset_payload (mkYM2612Chip 0 0) 0 [76, 69, 65, 68]
     (by decide) (by decide)).2.2.2.2.1⟩

/-- C1: evaluation of load_vgi_file at the 43-byte buffer whose first four
    bytes are 5, 6, 0, 9 (rest zero), loaded into a fresh chip.  The
    operator bytes do land in channel 0's operators (multiple of operator 0
    becomes 9), but the three voice-level header bytes are stored as new
    attributes of the chip object itself, so the decoded voice keeps
    op_algorithm 0, feedback 0 and its constructor default audio_out 3;
    loading 43 zero bytes likewise leaves the voice's audio_out at 3
    rather than the all-zero voice the claim requires. -/
theorem claim_C1_header_bytes_misdirected :
    ((channel (load_vgi_file (mkYM2612Chip 0 0)
        (5 :: 6 :: 0 :: 9 :: List.replicate 39 0)).1 0).op_algorithm = 0 ∧
      (channel (load_vgi_file (mkYM2612Chip 0 0)
        (5 :: 6 :: 0 :: 9 :: List.replicate 39 0)).1 0).feedback = 0 ∧
      (channel (load_vgi_file (mkYM2612Chip 0 0)
        (5 :: 6 :: 0 :: 9 :: List.replicate 39 0)).1 0).audio_out = 3) ∧
    ((load_vgi_file (mkYM2612Chip 0 0)
        (5 :: 6 :: 0 :: 9 :: List.replicate 39 0)).1.op_algorithm = some 5 ∧
      (load_vgi_file (mkYM2612Chip 0 0)
        (5 :: 6 :: 0 :: 9 :: List.replicate 39 0)).1.feedback = some 6 ∧
      (load_vgi_file (mkYM2612Chip 0 0)
        (5 :: 6 :: 0 :: 9 :: List.replicate 39 0)).1.audio_out = some 0) ∧
    ((channel (load_vgi_file (mkYM2612Chip 0 0)
        (5 :: 6 :: 0 :: 9 :: List.replicate 39 0)).1 0).operator 0).multiple
      = 9 ∧
    (channel (load_vgi_file (mkYM2612Chip 0 0)
        (List.replicate 43 0)).1 0).audio_out = 3 := by
  decide

end YM2612

namespace YM2612

/-- Effect of the five-iteration aliasing loop of load_vgi_file on the
    channel reference table: every index ends up referring to the address
    channel 0 referred to before the loop. -/
theorem alias_fold_chanRef (c : YM2612Chip) (i : Fin 6) :
    ((List.range 5).foldl vgi_alias_step c).chanRef i = c.chanRef 0 := by
  fin_cases i <;> rfl

/-- Effect of the aliasing loop on the shared record: the last loop
    iteration leaves channel_id = 5 in the record all indices now share. -/
theorem alias_fold_heap_cid (c : YM2612Chip) :
    (((List.range 5).foldl vgi_alias_step c).heap (c.chanRef 0)).channel_id
      = 5 := by
  show ((vgi_alias_step (vgi_alias_step (vgi_alias_step (vgi_alias_step
    (vgi_alias_step c 0) 1) 2) 3) 4).heap (c.chanRef 0)).channel_id = 5
  simp [vgi_alias_step, updHeap]

/-- C10: after a successful 43-byte VGI load, all six channel indices refer
    to the very same record (the one channel 0 referred to), that shared
    record's channel_id reads 5, the flattened per-voice blocks of any two
    channel indices are identical, and a feedback write through any one
    index is read back through every other index. -/
theorem claim_C10_channel_aliasing (c : YM2612Chip) (byte_data : List Nat)
    (h : byte_data.length = 43) :
    (∀ i : Fin 6, (load_vgi_file c byte_data).1.chanRef i = c.chanRef 0) ∧
    (((load_vgi_file c byte_data).1.heap
        ((load_vgi_file c byte_data).1.chanRef 0)).channel_id = 5) ∧
    (∀ i j : Fin 6,
      channel_block (channel (load_vgi_file c byte_data).1 i)
        = channel_block (channel (load_vgi_file c byte_data).1 j)) ∧
    (∀ i j : Fin 6, ∀ v : Nat,
      (channel (write_feedback (load_vgi_file c byte_data).1 i v) j).feedback
        = v) := by
  have hc : ∀ i : Fin 6,
      (load_vgi_file c byte_data).1.chanRef i = c.chanRef 0 := by
    intro i
    simp only [load_vgi_file, h, if_true]
    rw [alias_fold_chanRef]
  refine ⟨hc, ?_, ?_, ?_⟩
  · rw [hc 0]
    simp only [load_vgi_file, h, if_true]
    exact alias_fold_heap_cid _
  · intro i j
    simp only [channel, hc i, hc j]
  · intro i j v
    simp only [channel, write_feedback, updHeap, hc i, hc j]
    simp

/-- C10 witness: the aliasing law evaluated on a fresh chip and the
    43-byte all-zero buffer, at concrete channel indices. -/
theorem claim_C10_channel_aliasing_witness :
    (List.replicate 43 (0 : Nat)).length = 43 ∧
    (load_vgi_file (mkYM2612Chip 0 0) (List.replicate 43 0)).1.chanRef 3
      = (mkYM2612Chip 0 0).chanRef 0 ∧
    ((load_vgi_file (mkYM2612Chip 0 0) (List.replicate 43 0)).1.heap
      ((load_vgi_file (mkYM2612Chip 0 0)
        (List.replicate 43 0)).1.chanRef 0)).channel_id = 5 ∧
    channel_block (channel (load_vgi_file (mkYM2612Chip 0 0)
        (List.replicate 43 0)).1 1)
      = channel_block (channel (load_vgi_file (mkYM2612Chip 0 0)
        (List.replicate 43 0)).1 4) ∧
    (channel (write_feedback (load_vgi_file (mkYM2612Chip 0 0)
        (List.replicate 43 0)).1 2 9) 5).feedback = 9 := by
  have H := claim_C10_channel_aliasing (mkYM2612Chip 0 0)
    (List.replicate 43 0) (by decide)
  exact ⟨by decide, H.1 3, H.2.1, H.2.2.1 1 4, H.2.2.2 2 5 9⟩

end YM2612
